import Mathlib

/-!
Shallow embedding of `src/telegram_bot.py` (Instagram video downloader bot).

The per-request handler `download_video` is modelled as a pure function over
an explicit environment describing the upstream content provider, the
transport, and the filesystem fault behaviour.  Python exceptions are
modelled with `Except`; the per-requester download directory is modelled as
the list of file names it contains.
-/

namespace InstaBot

/-- Character-list analogue of Python `s.startswith(p)`. -/
def startsWithChars : List Char → List Char → Bool
  | [], _ => true
  | _ :: _, [] => false
  | p :: ps, c :: cs => p == c && startsWithChars ps cs

/-- Python substring test `pat in s` on character lists. -/
def hasSubstr (pat : List Char) : List Char → Bool
  | [] => pat.isEmpty
  | c :: cs => startsWithChars pat (c :: cs) || hasSubstr pat cs

/-- Python `str.lower()` (the classifier markers are pure ASCII). -/
def pyLower (s : String) : List Char := s.toList.map Char.toLower

/-- Python `pat in str(e).lower()`, as used by the handler's classifier. -/
def markerIn (pat : String) (msg : String) : Bool :=
  hasSubstr pat.toList (pyLower msg)

/-- Python `f.endswith(suffix)`. -/
def pyEndsWith (s : String) (suffix : String) : Bool :=
  startsWithChars suffix.toList.reverse s.toList.reverse

/-- Python `url.rstrip('/')`: remove every trailing slash. -/
def rstripSlash (l : List Char) : List Char :=
  (l.reverse.dropWhile (fun c => c == '/')).reverse

/-- Python `url.split('/')`: split on every slash, keeping empty segments. -/
def splitSlash : List Char → List (List Char)
  | [] => [[]]
  | c :: cs =>
    match splitSlash cs with
    | [] => [[]]
    | seg :: rest => if c == '/' then [] :: seg :: rest else (c :: seg) :: rest

/-- Python `l[-2]`: the second-to-last element; `none` models the
`IndexError` raised when the list has fewer than two elements. -/
def pyIndexNeg2 (l : List (List Char)) : Option (List Char) :=
  if 2 ≤ l.length then l[l.length - 2]? else none

/-- Embedding of `telegram_bot.extract_shortcode`: strip trailing slashes,
split on `/`, return the second-to-last part (`none` models the raised
`IndexError`). -/
def extract_shortcode (url : String) : Option String :=
  (pyIndexNeg2 (splitSlash (rstripSlash url.toList))).map (fun cs => String.mk cs)

/-! ## The request-handling pipeline (`download_video`) -/

/-- Fixed message texts taken verbatim from the handler. -/
def processingMsg : String := "⏳ Processing your request..."

/-- Reply when `post.is_video` is false. -/
def noVideoMsg : String := "❌ This post does not contain a video."

/-- Caption attached to a delivered video. -/
def captionMsg : String := "✅ Here\x27s your video!"

/-- Reply when `reply_video` raises (caught as an oversize payload). -/
def tooLargeMsg : String := "❌ Video file too large to send via Telegram."

/-- Reply when no `.mp4` file is found in the download directory. -/
def noVideoFoundMsg : String := "❌ No video found in the post."

/-- Classified reply for a cause containing "not found". -/
def notFoundMsg : String := "❌ Post not found. Make sure the link is valid."

/-- Classified reply for a cause containing "private". -/
def privateMsg : String :=
  "❌ This is a private post. I can only download public posts."

/-- Fallback reply for any other `InstaloaderException`. -/
def genericMsg : String :=
  "❌ Error: Could not download the video. Make sure:\n1. The link is valid\n2. The post is public\n3. The post contains a video"

/-- Reply from the outermost `except Exception` handler. -/
def unexpectedMsg : String :=
  "❌ Sorry, something went wrong while processing your request."

/-- Message carried by the `IndexError` that `url.split('/')[-2]` raises on a
short list. -/
def indexErrorMsg : String := "list index out of range"

/-- Message carried by an `OSError` from a failing `os.remove`. -/
def removeErrorMsg : String := "os.remove failed"

/-- A message sent back to the requester. -/
inductive Reply where
  | text (msg : String)
  | video (caption : String)
deriving DecidableEq

/-- A raised Python exception, split the way the handler's `except` clauses
split it: `instaloader.exceptions.InstaloaderException` versus everything
else. -/
inductive PyExc where
  | insta (msg : String)
  | other (msg : String)
deriving DecidableEq

/-- The post metadata the handler consults (`post.is_video`). -/
structure PostMeta where
  is_video : Bool
deriving DecidableEq

/-- Result of `instaloader.Post.from_shortcode`. -/
inductive ResolveResult where
  | ok (post : PostMeta)
  | err (e : PyExc)

/-- Result of `loader.download_post`: the files it wrote into the target
directory, and — on failure — the exception raised after writing them. -/
inductive DownloadResult where
  | ok (written : List String)
  | err (e : PyExc) (written : List String)

/-- Behaviour of the upstream provider on one retrieval attempt. -/
structure AttemptBehavior where
  resolve : ResolveResult
  download : DownloadResult

/-- The external world: provider behaviour per attempt number (0-based),
whether `reply_video` raises for a given file (e.g. payload too large), and
whether `os.remove` fails for a given file. -/
structure Env where
  attempts : Nat → AttemptBehavior
  sendVideoFails : String → Bool
  removeFails : String → Bool

/-- Observable state threaded through one handler invocation: replies sent so
far, current contents of the per-requester directory, attempt/backoff/
rotation counters, whether the final cleanup sweep ran, and whether the
directory itself exists. -/
structure St where
  replies : List Reply
  files : List String
  attemptsMade : Nat
  backoffSleeps : List Nat
  rotations : Nat
  sweepRan : Bool
  dirExists : Bool
deriving DecidableEq

/-- The handler's `max_retries = 3`. -/
def max_retries : Nat := 3

/-- Result of the body of one iteration of the retry loop. -/
inductive AttemptRes where
  | proceed (st : St)
  | early (st : St)
  | exc (e : PyExc) (st : St)

/-- One iteration body of the retry loop (lines 86-94): resolve the post,
return early when it is not a video, otherwise download into the
directory; any raised exception is surfaced as `AttemptRes.exc`. -/
def oneAttempt (env : Env) (attempt : Nat) (st : St) : AttemptRes :=
  match (env.attempts attempt).resolve with
  | ResolveResult.ok post =>
    if post.is_video then
      match (env.attempts attempt).download with
      | DownloadResult.ok written =>
        AttemptRes.proceed
          { st with attemptsMade := st.attemptsMade + 1, files := st.files ++ written }
      | DownloadResult.err e written =>
        AttemptRes.exc e
          { st with attemptsMade := st.attemptsMade + 1, files := st.files ++ written }
    else
      AttemptRes.early
        { st with attemptsMade := st.attemptsMade + 1,
                  replies := st.replies ++ [Reply.text noVideoMsg] }
  | ResolveResult.err e =>
    AttemptRes.exc e { st with attemptsMade := st.attemptsMade + 1 }

/-- The handler state carried by an attempt result. -/
def AttemptRes.state : AttemptRes → St
  | AttemptRes.proceed s => s
  | AttemptRes.early s => s
  | AttemptRes.exc _ s => s

/-- The retry loop (lines 85-100), structurally recursive on the remaining
fuel (`max_retries - attempt` iterations are left).  An
`InstaloaderException` whose lowered text contains "rate-limited" is
retried while `attempt < max_retries - 1`, after recording the backoff
sleep `5 * (attempt + 1)` and one identity rotation; every other exception
is re-raised.  The `Bool` of a normal result is `true` for the early
`return` taken when the post has no video. -/
def retryLoop (env : Env) : Nat → Nat → St → Except (PyExc × St) (Bool × St)
  | _, 0, st => Except.ok (false, st)
  | attempt, fuel + 1, st =>
    match oneAttempt env attempt st with
    | AttemptRes.proceed st' => Except.ok (false, st')
    | AttemptRes.early st' => Except.ok (true, st')
    | AttemptRes.exc e st' =>
      match e with
      | PyExc.insta msg =>
        if markerIn "rate-limited" msg ∧ attempt < max_retries - 1 then
          retryLoop env (attempt + 1) fuel
            { st' with
              backoffSleeps := st'.backoffSleeps ++ [5 * (attempt + 1)],
              rotations := st'.rotations + 1 }
        else Except.error (PyExc.insta msg, st')
      | PyExc.other m => Except.error (PyExc.other m, st')

/-- The reply produced by the delivery attempt on file `f` (lines 108-115):
the video with its caption, or — when the transport raises — the
too-large text from the `except` clause. -/
def sendReply (env : Env) (f : String) : Reply :=
  if env.sendVideoFails f then Reply.text tooLargeMsg else Reply.video captionMsg

/-- Delivery phase (lines 102-121): find the first `.mp4` file, try to send
it (any send failure is reported as the too-large text), then delete it in
the `finally`; a failing delete raises out of the phase.  Without an
`.mp4` file, reply that no video was found. -/
def sendPhase (env : Env) (st : St) : Except (PyExc × St) St :=
  match st.files.find? (fun f => pyEndsWith f ".mp4") with
  | some f =>
    if env.removeFails f then
      Except.error (PyExc.other removeErrorMsg,
        { st with replies := st.replies ++ [sendReply env f] })
    else
      Except.ok
        { st with replies := st.replies ++ [sendReply env f],
                  files := st.files.erase f }
  | none => Except.ok { st with replies := st.replies ++ [Reply.text noVideoFoundMsg] }

/-- Embedding of the cleanup semantics of lines 124-129 on the directory
contents — delete every file, keeping (and merely logging) those whose
deletion fails.  Total: no exception escapes the per-file `try`/`except`. -/
def release (removeFails : String → Bool) (files : List String) : List String :=
  files.filter (fun f => removeFails f)

/-- The cleanup sweep (lines 123-129) applied to the handler state; it only
touches the files inside the directory, never the directory itself. -/
def sweep (env : Env) (st : St) : St :=
  { st with files := release env.removeFails st.files, sweepRan := true }

/-- The handler's error classifier (lines 131-149): substring markers
"not found" then "private" on the lowered cause of an
`InstaloaderException`, generic fallback; anything else is the unexpected
failure apology. -/
def classify (e : PyExc) : String :=
  match e with
  | PyExc.insta msg =>
    if markerIn "not found" msg then notFoundMsg
    else if markerIn "private" msg then privateMsg
    else genericMsg
  | PyExc.other _ => unexpectedMsg

/-- Body of the handler's outer `try` (lines 76-129): progress reply, URL
parse, initial session rotation, retry loop, delivery, cleanup sweep.  The
not-a-video early `return` skips both delivery and the sweep. -/
def tryBody (env : Env) (url : String) (st : St) : Except (PyExc × St) St :=
  match extract_shortcode url with
  | none =>
    Except.error (PyExc.other indexErrorMsg,
      { st with replies := st.replies ++ [Reply.text processingMsg] })
  | some _ =>
    match retryLoop env 0 max_retries
        { st with replies := st.replies ++ [Reply.text processingMsg],
                  rotations := st.rotations + 1 } with
    | Except.error es => Except.error es
    | Except.ok (true, st1) => Except.ok st1
    | Except.ok (false, st1) =>
      match sendPhase env st1 with
      | Except.error es => Except.error es
      | Except.ok st2 => Except.ok (sweep env st2)

/-- State at the top of the handler, after `os.makedirs` has ensured the
per-requester directory exists (its prior contents are whatever the
directory held). -/
def initSt (initFiles : List String) : St :=
  { replies := [], files := initFiles, attemptsMade := 0, backoffSleeps := [],
    rotations := 0, sweepRan := false, dirExists := true }

/-- Embedding of `telegram_bot.download_video`: run the body and catch every
exception at the request boundary, converting it into the classified text
reply. -/
def download_video (env : Env) (url : String) (initFiles : List String) : St :=
  match tryBody env url (initSt initFiles) with
  | Except.ok st => st
  | Except.error (e, st) =>
    { st with replies := st.replies ++ [Reply.text (classify e)] }

/-- The per-requester directory name `downloads_<chat_id>` (line 71). -/
def downloadDirName (chatId : Nat) : String := "downloads_" ++ toString chatId

/-- The handler state carried by a retry-loop result. -/
def loopSt : Except (PyExc × St) (Bool × St) → St
  | Except.ok (_, s) => s
  | Except.error (_, s) => s

/-- The handler state carried by a delivery-phase result. -/
def phaseSt : Except (PyExc × St) St → St
  | Except.ok s => s
  | Except.error (_, s) => s

/-! ### Concrete fixtures used by witnesses and counterexamples -/

/-- A sample well-formed request URL. -/
def sampleUrl : String := "https://instagram.com/p/ABC123/"

/-- A provider that reports a rate-limited failure on every attempt. -/
def envRateLimited : Env :=
  { attempts := fun _ =>
      { resolve := ResolveResult.err (PyExc.insta "429 too many requests: rate-limited"),
        download := DownloadResult.ok [] },
    sendVideoFails := fun _ => false,
    removeFails := fun _ => false }

/-- A provider whose download writes a partial file into the directory and
then raises a generic (non-rate-limited) failure. -/
def envPartialFail : Env :=
  { attempts := fun _ =>
      { resolve := ResolveResult.ok { is_video := true },
        download := DownloadResult.err (PyExc.insta "connection broken by peer")
          ["partial.mp4"] },
    sendVideoFails := fun _ => false,
    removeFails := fun _ => false }

/-- A provider and transport where everything succeeds on the first attempt. -/
def envHappy : Env :=
  { attempts := fun _ =>
      { resolve := ResolveResult.ok { is_video := true },
        download := DownloadResult.ok ["video.mp4"] },
    sendVideoFails := fun _ => false,
    removeFails := fun _ => false }

/-- A transport that rejects the payload of `big.mp4` (platform size
ceiling). -/
def envOversize : Env :=
  { attempts := fun _ =>
      { resolve := ResolveResult.ok { is_video := true },
        download := DownloadResult.ok ["big.mp4"] },
    sendVideoFails := fun f => f == "big.mp4",
    removeFails := fun _ => false }

/-- A provider that reports a not-found failure on every attempt. -/
def envNotFound : Env :=
  { attempts := fun _ =>
      { resolve := ResolveResult.err
          (PyExc.insta "Fetching Post metadata failed: 404 not found"),
        download := DownloadResult.ok [] },
    sendVideoFails := fun _ => false,
    removeFails := fun _ => false }

/-! ## Helper lemmas about the URL parser -/

theorem takeWhile_append_all {α} (p : α → Bool) (xs ys : List α)
    (h : ∀ x ∈ xs, p x = true) :
    (xs ++ ys).takeWhile p = xs ++ ys.takeWhile p := by
  induction xs with
  | nil => simp
  | cons x xs ih =>
    have hx : p x = true := h x (by simp)
    simp only [List.cons_append, List.takeWhile_cons, hx, if_true]
    rw [ih (fun a ha => h a (by simp [ha]))]

theorem takeWhile_append_stop {α} (p : α → Bool) (xs ys : List α)
    (h : ∃ x ∈ xs, p x = false) :
    (xs ++ ys).takeWhile p = xs.takeWhile p := by
  induction xs with
  | nil => simp at h
  | cons x xs ih =>
    by_cases hx : p x = true
    · simp only [List.cons_append, List.takeWhile_cons, hx, if_true]
      rcases h with ⟨a, ha, hpa⟩
      rcases List.mem_cons.mp ha with rfl | ha'
      · rw [hx] at hpa; cases hpa
      · rw [ih ⟨a, ha', hpa⟩]
    · have hx' : p x = false := by
        cases hpx : p x with
        | true => exact absurd hpx hx
        | false => rfl
      simp [List.takeWhile_cons, hx']

theorem takeWhile_append_one_false {α} (p : α → Bool) (xs : List α) (y : α)
    (hy : p y = false) : (xs ++ [y]).takeWhile p = xs.takeWhile p := by
  induction xs with
  | nil => simp [List.takeWhile_cons, hy]
  | cons x xs ih =>
    by_cases hx : p x = true
    · simp only [List.cons_append, List.takeWhile_cons, hx, if_true]
      rw [ih]
    · have hx' : p x = false := by
        cases hpx : p x with
        | true => exact absurd hpx hx
        | false => rfl
      simp [List.takeWhile_cons, hx']

theorem splitSlash_ne_nil (l : List Char) : splitSlash l ≠ [] := by
  cases l with
  | nil => simp [splitSlash]
  | cons c cs =>
    rw [splitSlash]
    cases h : splitSlash cs with
    | nil => simp
    | cons seg rest => by_cases hc : c == '/' <;> simp [hc]

theorem splitSlash_cons_eq (c : Char) (cs seg : List Char) (rest : List (List Char))
    (h : splitSlash cs = seg :: rest) :
    splitSlash (c :: cs) =
      if c == '/' then [] :: seg :: rest else (c :: seg) :: rest := by
  rw [splitSlash, h]

theorem splitSlash_length (l : List Char) :
    (splitSlash l).length = l.count '/' + 1 := by
  induction l with
  | nil => simp [splitSlash]
  | cons c cs ih =>
    cases h : splitSlash cs with
    | nil => exact absurd h (splitSlash_ne_nil cs)
    | cons seg rest =>
      rw [h] at ih
      rw [splitSlash_cons_eq c cs seg rest h, List.count_cons]
      simp only [List.length_cons] at ih
      by_cases hc : c == '/' <;> simp [hc] <;> omega

theorem splitSlash_getLast? (l : List Char) :
    (splitSlash l).getLast? =
      some ((l.reverse.takeWhile (fun c => !(c == '/'))).reverse) := by
  induction l with
  | nil => simp [splitSlash]
  | cons c cs ih =>
    cases h : splitSlash cs with
    | nil => exact absurd h (splitSlash_ne_nil cs)
    | cons seg rest =>
      rw [h] at ih
      rw [splitSlash_cons_eq c cs seg rest h]
      by_cases hc : c == '/'
      · have hcc : c = '/' := by simpa using hc
        rw [if_pos hc, List.getLast?_cons_cons, ih]
        subst hcc
        rw [List.reverse_cons, takeWhile_append_one_false _ _ _ (by simp)]
      · have hpc : (!(c == '/')) = true := by simp [hc]
        rw [if_neg hc]
        cases rest with
        | nil =>
          -- a single segment: cs contains no slash
          have hcount : cs.count '/' = 0 := by
            have hlen := splitSlash_length cs
            rw [h] at hlen
            simpa using hlen.symm
          have hnotin : '/' ∉ cs := List.count_eq_zero.mp hcount
          have hall : ∀ x ∈ cs.reverse, (fun c => !(c == '/')) x = true := by
            intro x hx
            have hxcs : x ∈ cs := by simpa using hx
            have hne : ¬(x = '/') := fun hx' => hnotin (hx' ▸ hxcs)
            simp [hne]
          have hself : cs.reverse.takeWhile (fun c => !(c == '/')) = cs.reverse := by
            have := takeWhile_append_all (fun c => !(c == '/')) cs.reverse [] hall
            simpa using this
          have hseg : seg = cs := by
            have hone := ih
            simp only [List.getLast?_singleton, Option.some.injEq] at hone
            rw [hone, hself, List.reverse_reverse]
          rw [List.getLast?_singleton, List.reverse_cons, takeWhile_append_all _ _ _ hall]
          simp [hseg, hpc]
        | cons r rs =>
          -- more than one segment: cs contains a slash
          have hcount : 1 ≤ cs.count '/' := by
            have hlen := splitSlash_length cs
            rw [h] at hlen
            simp only [List.length_cons] at hlen
            omega
          have hin : '/' ∈ cs := by
            by_contra hni
            rw [List.count_eq_zero.mpr hni] at hcount
            omega
          have hgl : (seg :: r :: rs).getLast? = (r :: rs).getLast? :=
            List.getLast?_cons_cons
          rw [List.getLast?_cons_cons, ← hgl, ih, List.reverse_cons,
            takeWhile_append_stop]
          exact ⟨'/', by simpa using hin, by simp⟩

theorem dropWhile_takeWhile_nil (l : List Char) :
    ((l.dropWhile (fun c => c == '/')).takeWhile (fun c => !(c == '/'))) = [] →
      l.dropWhile (fun c => c == '/') = [] := by
  induction l with
  | nil => intro _; rfl
  | cons c cs ih =>
    by_cases hc : c == '/'
    · rw [List.dropWhile_cons, if_pos hc]
      exact ih
    · rw [List.dropWhile_cons, if_neg hc]
      intro h
      rw [List.takeWhile_cons] at h
      simp [hc] at h

theorem pyIndexNeg2_append (pre : List (List Char)) (a b : List Char) :
    pyIndexNeg2 (pre ++ [a, b]) = some a := by
  unfold pyIndexNeg2
  have hlen : (pre ++ [a, b]).length = pre.length + 2 := by simp
  rw [hlen, if_pos (by omega)]
  have hidx : pre.length + 2 - 2 = pre.length := by omega
  rw [hidx, List.getElem?_append_right (Nat.le_refl pre.length)]
  simp

theorem stripped_getLast_ne_nil (url : String) (segs : List (List Char))
    (hsegs : splitSlash (rstripSlash url.toList) = segs) (h2 : 2 ≤ segs.length) :
    segs.getLast? ≠ some [] := by
  intro hlast
  have hgl := splitSlash_getLast? (rstripSlash url.toList)
  rw [hsegs, hlast] at hgl
  -- the stripped URL's trailing run of non-slash characters is empty
  have hrev : ((rstripSlash url.toList).reverse.takeWhile (fun c => !(c == '/'))) = [] := by
    have := hgl.symm
    simp only [Option.some.injEq] at this
    have := congrArg List.reverse this
    simpa using this
  -- hence the stripped URL itself is empty
  have hdrop : (rstripSlash url.toList).reverse
      = url.toList.reverse.dropWhile (fun c => c == '/') := by
    unfold rstripSlash
    rw [List.reverse_reverse]
  rw [hdrop] at hrev
  have hnil := dropWhile_takeWhile_nil url.toList.reverse hrev
  have hstrip : rstripSlash url.toList = [] := by
    unfold rstripSlash
    rw [hnil]
    rfl
  rw [hstrip] at hsegs
  have : segs = [[]] := by rw [← hsegs]; rfl
  rw [this] at h2
  simp at h2

/-! ## Helper lemmas about the pipeline -/

theorem oneAttempt_inv (env : Env) (attempt : Nat) (st : St) :
    (oneAttempt env attempt st).state.sweepRan = st.sweepRan
    ∧ (oneAttempt env attempt st).state.dirExists = st.dirExists := by
  unfold oneAttempt
  cases (env.attempts attempt).resolve with
  | ok post =>
    cases hv : post.is_video
    · simp [hv, AttemptRes.state]
    · cases (env.attempts attempt).download <;> simp [hv, AttemptRes.state]
  | err e => simp [AttemptRes.state]

theorem retryLoop_succ_proceed (env : Env) (attempt fuel : Nat) (st s : St)
    (h : oneAttempt env attempt st = AttemptRes.proceed s) :
    retryLoop env attempt (fuel + 1) st = Except.ok (false, s) := by
  rw [retryLoop, h]

theorem retryLoop_succ_early (env : Env) (attempt fuel : Nat) (st s : St)
    (h : oneAttempt env attempt st = AttemptRes.early s) :
    retryLoop env attempt (fuel + 1) st = Except.ok (true, s) := by
  rw [retryLoop, h]

theorem retryLoop_succ_insta (env : Env) (attempt fuel : Nat) (st s : St)
    (msg : String) (h : oneAttempt env attempt st = AttemptRes.exc (PyExc.insta msg) s) :
    retryLoop env attempt (fuel + 1) st =
      if markerIn "rate-limited" msg ∧ attempt < max_retries - 1 then
        retryLoop env (attempt + 1) fuel
          { s with backoffSleeps := s.backoffSleeps ++ [5 * (attempt + 1)],
                   rotations := s.rotations + 1 }
      else Except.error (PyExc.insta msg, s) := by
  rw [retryLoop, h]

theorem retryLoop_succ_other (env : Env) (attempt fuel : Nat) (st s : St)
    (m : String) (h : oneAttempt env attempt st = AttemptRes.exc (PyExc.other m) s) :
    retryLoop env attempt (fuel + 1) st = Except.error (PyExc.other m, s) := by
  rw [retryLoop, h]

theorem retryLoop_inv (env : Env) :
    ∀ (fuel attempt : Nat) (st : St),
      (loopSt (retryLoop env attempt fuel st)).sweepRan = st.sweepRan
      ∧ (loopSt (retryLoop env attempt fuel st)).dirExists = st.dirExists := by
  intro fuel
  induction fuel with
  | zero => intro attempt st; exact ⟨rfl, rfl⟩
  | succ fuel ih =>
    intro attempt st
    have hoa := oneAttempt_inv env attempt st
    cases h : oneAttempt env attempt st with
    | proceed s =>
      rw [h] at hoa
      rw [retryLoop_succ_proceed env attempt fuel st s h]
      simpa [loopSt] using hoa
    | early s =>
      rw [h] at hoa
      rw [retryLoop_succ_early env attempt fuel st s h]
      simpa [loopSt] using hoa
    | exc e s =>
      rw [h] at hoa
      simp only [AttemptRes.state] at hoa
      cases e with
      | insta msg =>
        rw [retryLoop_succ_insta env attempt fuel st s msg h]
        by_cases hcond : markerIn "rate-limited" msg ∧ attempt < max_retries - 1
        · rw [if_pos hcond]
          have hih := ih (attempt + 1)
            { s with backoffSleeps := s.backoffSleeps ++ [5 * (attempt + 1)],
                     rotations := s.rotations + 1 }
          exact ⟨hih.1.trans hoa.1, hih.2.trans hoa.2⟩
        · rw [if_neg hcond]
          simpa [loopSt] using hoa
      | other m =>
        rw [retryLoop_succ_other env attempt fuel st s m h]
        simpa [loopSt] using hoa

theorem sendPhase_inv (env : Env) (st : St) :
    (phaseSt (sendPhase env st)).sweepRan = st.sweepRan
    ∧ (phaseSt (sendPhase env st)).dirExists = st.dirExists := by
  unfold sendPhase
  cases st.files.find? (fun f => pyEndsWith f ".mp4") with
  | none => simp [phaseSt]
  | some f =>
    by_cases hr : env.removeFails f <;> simp [hr, phaseSt]

/-- The state fed into the retry loop by `tryBody`: the progress reply has
been sent and `create_new_session` has rotated the identity once. -/
theorem tryBody_none (env : Env) (url : String) (st : St)
    (h : extract_shortcode url = none) :
    tryBody env url st = Except.error (PyExc.other indexErrorMsg,
      { st with replies := st.replies ++ [Reply.text processingMsg] }) := by
  rw [tryBody, h]

theorem tryBody_loop_err (env : Env) (url : String) (st : St) (sc : String)
    (e : PyExc) (s : St) (hex : extract_shortcode url = some sc)
    (hrl : retryLoop env 0 max_retries
      { st with replies := st.replies ++ [Reply.text processingMsg],
                rotations := st.rotations + 1 } = Except.error (e, s)) :
    tryBody env url st = Except.error (e, s) := by
  rw [tryBody, hex, hrl]

theorem tryBody_loop_early (env : Env) (url : String) (st : St) (sc : String)
    (s : St) (hex : extract_shortcode url = some sc)
    (hrl : retryLoop env 0 max_retries
      { st with replies := st.replies ++ [Reply.text processingMsg],
                rotations := st.rotations + 1 } = Except.ok (true, s)) :
    tryBody env url st = Except.ok s := by
  rw [tryBody, hex, hrl]

theorem tryBody_send (env : Env) (url : String) (st : St) (sc : String)
    (s1 : St) (hex : extract_shortcode url = some sc)
    (hrl : retryLoop env 0 max_retries
      { st with replies := st.replies ++ [Reply.text processingMsg],
                rotations := st.rotations + 1 } = Except.ok (false, s1)) :
    tryBody env url st =
      (match sendPhase env s1 with
       | Except.error es => Except.error es
       | Except.ok st2 => Except.ok (sweep env st2)) := by
  rw [tryBody, hex, hrl]

theorem tryBody_send_err (env : Env) (url : String) (st : St) (sc : String)
    (s1 : St) (e2 : PyExc) (s2 : St) (hex : extract_shortcode url = some sc)
    (hrl : retryLoop env 0 max_retries
      { st with replies := st.replies ++ [Reply.text processingMsg],
                rotations := st.rotations + 1 } = Except.ok (false, s1))
    (hsp : sendPhase env s1 = Except.error (e2, s2)) :
    tryBody env url st = Except.error (e2, s2) := by
  rw [tryBody_send env url st sc s1 hex hrl, hsp]

theorem tryBody_send_ok (env : Env) (url : String) (st : St) (sc : String)
    (s1 s2 : St) (hex : extract_shortcode url = some sc)
    (hrl : retryLoop env 0 max_retries
      { st with replies := st.replies ++ [Reply.text processingMsg],
                rotations := st.rotations + 1 } = Except.ok (false, s1))
    (hsp : sendPhase env s1 = Except.ok s2) :
    tryBody env url st = Except.ok (sweep env s2) := by
  rw [tryBody_send env url st sc s1 hex hrl, hsp]

theorem tryBody_cases (env : Env) (url : String) (st : St)
    (hst : st.sweepRan = false) :
    (∀ e st', tryBody env url st = Except.error (e, st') → st'.sweepRan = false)
    ∧ (∀ st', tryBody env url st = Except.ok st' → st'.sweepRan = true →
        ∃ stp, st' = sweep env stp) := by
  cases hex : extract_shortcode url with
  | none =>
    rw [tryBody_none env url st hex]
    constructor
    · intro e st' h
      simp only [Except.error.injEq, Prod.mk.injEq] at h
      rw [← h.2]
      exact hst
    · intro st' h
      cases h
  | some sc =>
    have hrls := (retryLoop_inv env max_retries 0
      { st with replies := st.replies ++ [Reply.text processingMsg],
                rotations := st.rotations + 1 }).1
    cases hrl : retryLoop env 0 max_retries
        { st with replies := st.replies ++ [Reply.text processingMsg],
                  rotations := st.rotations + 1 } with
    | error es =>
      obtain ⟨e0, s0⟩ := es
      rw [tryBody_loop_err env url st sc e0 s0 hex hrl]
      rw [hrl] at hrls
      constructor
      · intro e st' h
        simp only [Except.error.injEq, Prod.mk.injEq] at h
        rw [← h.2]
        exact hrls.trans hst
      · intro st' h
        cases h
    | ok bs =>
      obtain ⟨b, s1⟩ := bs
      rw [hrl] at hrls
      cases b with
      | true =>
        rw [tryBody_loop_early env url st sc s1 hex hrl]
        constructor
        · intro e st' h
          cases h
        · intro st' h htrue
          simp only [Except.ok.injEq] at h
          have hfalse : st'.sweepRan = false := by
            rw [← h]
            exact hrls.trans hst
          rw [htrue] at hfalse
          cases hfalse
      | false =>
        have hsps := (sendPhase_inv env s1).1
        cases hsp : sendPhase env s1 with
        | error es2 =>
          obtain ⟨e2, s2⟩ := es2
          rw [tryBody_send_err env url st sc s1 e2 s2 hex hrl hsp]
          rw [hsp] at hsps
          constructor
          · intro e st' h
            simp only [Except.error.injEq, Prod.mk.injEq] at h
            rw [← h.2]
            exact (hsps.trans hrls).trans hst
          · intro st' h
            cases h
        | ok s2 =>
          rw [tryBody_send_ok env url st sc s1 s2 hex hrl hsp]
          constructor
          · intro e st' h
            cases h
          · intro st' h _
            simp only [Except.ok.injEq] at h
            exact ⟨s2, h.symm⟩

theorem download_video_ok (env : Env) (url : String) (init : List String)
    (st' : St) (h : tryBody env url (initSt init) = Except.ok st') :
    download_video env url init = st' := by
  rw [download_video, h]

theorem download_video_err (env : Env) (url : String) (init : List String)
    (e : PyExc) (st' : St)
    (h : tryBody env url (initSt init) = Except.error (e, st')) :
    download_video env url init =
      { st' with replies := st'.replies ++ [Reply.text (classify e)] } := by
  rw [download_video, h]

/-- A provider that reports rate-limited on every attempt drives the loop
through exactly 3 attempts, with backoff sleeps of 5 and 10 seconds and an
identity rotation before each of the two retries, and finally re-raises
the rate-limited failure. -/
theorem retryLoop_always_rl (env : Env) (st : St) (msg : String)
    (hres : ∀ i, (env.attempts i).resolve = ResolveResult.err (PyExc.insta msg))
    (hmark : markerIn "rate-limited" msg = true) :
    retryLoop env 0 max_retries st = Except.error (PyExc.insta msg,
      { st with attemptsMade := st.attemptsMade + 3,
                backoffSleeps := st.backoffSleeps ++ [5, 10],
                rotations := st.rotations + 2 }) := by
  have h0 : oneAttempt env 0 st = AttemptRes.exc (PyExc.insta msg)
      { st with attemptsMade := st.attemptsMade + 1 } := by
    unfold oneAttempt
    rw [hres 0]
  rw [show max_retries = 2 + 1 from rfl,
    retryLoop_succ_insta env 0 2 st _ msg h0,
    if_pos ⟨hmark, by decide⟩]
  set st1 : St :=
    { st with attemptsMade := st.attemptsMade + 1,
              backoffSleeps := st.backoffSleeps ++ [5 * (0 + 1)],
              rotations := st.rotations + 1 } with hst1
  have h1 : oneAttempt env 1 st1 = AttemptRes.exc (PyExc.insta msg)
      { st1 with attemptsMade := st1.attemptsMade + 1 } := by
    unfold oneAttempt
    rw [hres 1]
  rw [show (2 : Nat) = 1 + 1 from rfl,
    retryLoop_succ_insta env 1 1 st1 _ msg h1,
    if_pos ⟨hmark, by decide⟩]
  set st2 : St :=
    { st1 with attemptsMade := st1.attemptsMade + 1,
               backoffSleeps := st1.backoffSleeps ++ [5 * (1 + 1)],
               rotations := st1.rotations + 1 } with hst2
  have h2 : oneAttempt env 2 st2 = AttemptRes.exc (PyExc.insta msg)
      { st2 with attemptsMade := st2.attemptsMade + 1 } := by
    unfold oneAttempt
    rw [hres 2]
  rw [show (1 : Nat) = 0 + 1 from rfl,
    retryLoop_succ_insta env 2 0 st2 _ msg h2,
    if_neg (fun hc => absurd hc.2 (by decide))]
  rw [hst2, hst1, List.append_assoc]
  rfl

/-- Any first-attempt failure that is not rate-limited propagates out of the
loop immediately, after exactly one attempt and with no backoff sleep or
extra rotation. -/
theorem retryLoop_first_err (env : Env) (st : St) (e : PyExc)
    (hres : (env.attempts 0).resolve = ResolveResult.err e)
    (hnot : ∀ m, e = PyExc.insta m → markerIn "rate-limited" m = false) :
    retryLoop env 0 max_retries st = Except.error (e,
      { st with attemptsMade := st.attemptsMade + 1 }) := by
  have h0 : oneAttempt env 0 st = AttemptRes.exc e
      { st with attemptsMade := st.attemptsMade + 1 } := by
    unfold oneAttempt
    rw [hres]
  cases e with
  | insta m =>
    rw [show max_retries = 2 + 1 from rfl,
      retryLoop_succ_insta env 0 2 st _ m h0,
      if_neg (fun hc => by rw [hnot m rfl] at hc; exact absurd hc.1 (by simp))]
  | other m =>
    rw [show max_retries = 2 + 1 from rfl,
      retryLoop_succ_other env 0 2 st _ m h0]

/-- A first attempt that resolves a post without video content ends the loop
at once with the early return, after exactly one attempt. -/
theorem retryLoop_first_notVideo (env : Env) (st : St)
    (hres : (env.attempts 0).resolve = ResolveResult.ok { is_video := false }) :
    retryLoop env 0 max_retries st = Except.ok (true,
      { st with attemptsMade := st.attemptsMade + 1,
                replies := st.replies ++ [Reply.text noVideoMsg] }) := by
  have h0 : oneAttempt env 0 st = AttemptRes.early
      { st with attemptsMade := st.attemptsMade + 1,
                replies := st.replies ++ [Reply.text noVideoMsg] } := by
    unfold oneAttempt
    rw [hres]
    rfl
  rw [show max_retries = 2 + 1 from rfl,
    retryLoop_succ_early env 0 2 st _ h0]

theorem tryBody_dirExists (env : Env) (url : String) (st : St) :
    (∀ e st', tryBody env url st = Except.error (e, st') → st'.dirExists = st.dirExists)
    ∧ (∀ st', tryBody env url st = Except.ok st' → st'.dirExists = st.dirExists) := by
  cases hex : extract_shortcode url with
  | none =>
    rw [tryBody_none env url st hex]
    constructor
    · intro e st' h
      simp only [Except.error.injEq, Prod.mk.injEq] at h
      rw [← h.2]
    · intro st' h
      cases h
  | some sc =>
    have hrls := (retryLoop_inv env max_retries 0
      { st with replies := st.replies ++ [Reply.text processingMsg],
                rotations := st.rotations + 1 }).2
    cases hrl : retryLoop env 0 max_retries
        { st with replies := st.replies ++ [Reply.text processingMsg],
                  rotations := st.rotations + 1 } with
    | error es =>
      obtain ⟨e0, s0⟩ := es
      rw [tryBody_loop_err env url st sc e0 s0 hex hrl]
      rw [hrl] at hrls
      constructor
      · intro e st' h
        simp only [Except.error.injEq, Prod.mk.injEq] at h
        rw [← h.2]
        exact hrls
      · intro st' h
        cases h
    | ok bs =>
      obtain ⟨b, s1⟩ := bs
      rw [hrl] at hrls
      cases b with
      | true =>
        rw [tryBody_loop_early env url st sc s1 hex hrl]
        constructor
        · intro e st' h
          cases h
        · intro st' h
          simp only [Except.ok.injEq] at h
          rw [← h]
          exact hrls
      | false =>
        have hsps := (sendPhase_inv env s1).2
        cases hsp : sendPhase env s1 with
        | error es2 =>
          obtain ⟨e2, s2⟩ := es2
          rw [tryBody_send_err env url st sc s1 e2 s2 hex hrl hsp]
          rw [hsp] at hsps
          constructor
          · intro e st' h
            simp only [Except.error.injEq, Prod.mk.injEq] at h
            rw [← h.2]
            exact hsps.trans hrls
          · intro st' h
            cases h
        | ok s2 =>
          rw [tryBody_send_ok env url st sc s1 s2 hex hrl hsp]
          rw [hsp] at hsps
          constructor
          · intro e st' h
            cases h
          · intro st' h
            simp only [Except.ok.injEq] at h
            rw [← h]
            exact hsps.trans hrls

theorem sendPhase_found (env : Env) (st : St) (f : String)
    (hf : st.files.find? (fun x => pyEndsWith x ".mp4") = some f) :
    sendPhase env st =
      if env.removeFails f then
        Except.error (PyExc.other removeErrorMsg,
          { st with replies := st.replies ++ [sendReply env f] })
      else
        Except.ok
          { st with replies := st.replies ++ [sendReply env f],
                    files := st.files.erase f } := by
  rw [sendPhase, hf]

theorem classify_insta (msg : String) :
    classify (PyExc.insta msg) =
      if markerIn "not found" msg then notFoundMsg
      else if markerIn "private" msg then privateMsg
      else genericMsg := rfl

theorem classify_other (m : String) : classify (PyExc.other m) = unexpectedMsg := rfl

/-! ## Claims -/

/-- Claim C1, counterexample: when the download writes a partial file and
then fails with a generic error, the handler reaches the classified-failure
terminal outcome with the file still in the workspace and without ever
running the cleanup sweep — refuting both that the workspace holds zero
files after any terminal outcome and that the sweep runs on every exit
path. -/
theorem C1_cleanup_counterexample :
    (download_video envPartialFail sampleUrl []).files = ["partial.mp4"]
      ∧ (download_video envPartialFail sampleUrl []).sweepRan = false := by
  exact ⟨rfl, rfl⟩

/-- Claim C1 (amended): the cleanup sweep runs only on the path that
completes the delivery phase normally; whenever the sweep has run and no
individual deletion fails, the workspace directory contains zero files at
the terminal outcome.  On the not-a-video early return and on classified
or unexpected failure paths the sweep does not execute. -/
theorem C1_cleanup_amended (env : Env) (url : String) (init : List String)
    (hrm : ∀ f, env.removeFails f = false)
    (hsw : (download_video env url init).sweepRan = true) :
    (download_video env url init).files = [] := by
  have hcases := tryBody_cases env url (initSt init) rfl
  cases h : tryBody env url (initSt init) with
  | error es =>
    obtain ⟨e0, s0⟩ := es
    rw [download_video_err env url init e0 s0 h] at hsw
    have hfalse := hcases.1 e0 s0 h
    have hsw' : s0.sweepRan = true := hsw
    rw [hfalse] at hsw'
    cases hsw'
  | ok st' =>
    rw [download_video_ok env url init st' h] at hsw ⊢
    obtain ⟨stp, rfl⟩ := hcases.2 st' h hsw
    show release env.removeFails stp.files = []
    unfold release
    simp [hrm]

/-- Witness for the amended claim C1 at a concrete successful run starting
from a workspace holding a leftover file. -/
theorem C1_cleanup_amended_witness :
    (download_video envHappy sampleUrl ["old.txt"]).files = [] :=
  C1_cleanup_amended envHappy sampleUrl ["old.txt"] (fun _ => rfl) rfl

/-- Claim C2 (code bug): for both well-formed URL shapes the code returns
the path segment immediately preceding the final one — the literal `"p"`
of `/p/<shortcode>/` — not the shortcode `"ABC123"` which the claim (and
the function's own docstring) expects. -/
theorem C2_shortcode_eval :
    extract_shortcode "https://instagram.com/p/ABC123/" = some "p"
      ∧ extract_shortcode "https://instagram.com/p/ABC123" = some "p"
      ∧ "p" ≠ "ABC123" := by
  exact ⟨by decide, by decide, by decide⟩

/-- Claim C3: for every input string whose slash-split (after stripping
trailing slashes) has at least two segments, `extract_shortcode` returns
the second-to-last segment, i.e. the segment immediately preceding the
final segment, and that final segment is non-empty. -/
theorem C3_second_to_last (url : String) (pre : List (List Char)) (a b : List Char)
    (h : splitSlash (rstripSlash url.toList) = pre ++ [a, b]) :
    extract_shortcode url = some (String.mk a) ∧ b ≠ [] := by
  constructor
  · unfold extract_shortcode
    rw [h, pyIndexNeg2_append]
    rfl
  · intro hb
    subst hb
    apply stripped_getLast_ne_nil url (pre ++ [a, []]) h (by simp)
    have heq : pre ++ [a, ([] : List Char)] = (pre ++ [a]) ++ [[]] := by simp
    rw [heq, List.getLast?_concat]

/-- Witness for claim C3 on the sample URL. -/
theorem C3_second_to_last_witness :
    extract_shortcode sampleUrl = some (String.mk "p".toList)
      ∧ "ABC123".toList ≠ [] :=
  C3_second_to_last sampleUrl ["https:".toList, "".toList, "instagram.com".toList]
    "p".toList "ABC123".toList (by decide)

/-- Claim C4: the retry loop retries only on a rate-limited failure, making
exactly 3 attempts against an always-rate-limited provider with backoff
sleeps of 5 and 10 seconds and one identity rotation before each retry,
re-raising the failure on the final attempt; any other failure propagates
after exactly one attempt, and a post without video ends the loop after
exactly one attempt. -/
theorem C4_retry_policy (env : Env) (st : St) (msg : String) (e : PyExc) :
    ((∀ i, (env.attempts i).resolve = ResolveResult.err (PyExc.insta msg)) →
      markerIn "rate-limited" msg = true →
      retryLoop env 0 max_retries st = Except.error (PyExc.insta msg,
        { st with attemptsMade := st.attemptsMade + 3,
                  backoffSleeps := st.backoffSleeps ++ [5, 10],
                  rotations := st.rotations + 2 }))
    ∧ ((env.attempts 0).resolve = ResolveResult.err e →
       (∀ m, e = PyExc.insta m → markerIn "rate-limited" m = false) →
       retryLoop env 0 max_retries st = Except.error (e,
         { st with attemptsMade := st.attemptsMade + 1 }))
    ∧ ((env.attempts 0).resolve = ResolveResult.ok { is_video := false } →
       retryLoop env 0 max_retries st = Except.ok (true,
         { st with attemptsMade := st.attemptsMade + 1,
                   replies := st.replies ++ [Reply.text noVideoMsg] })) :=
  ⟨fun hres hmark => retryLoop_always_rl env st msg hres hmark,
   fun hres hnot => retryLoop_first_err env st e hres hnot,
   fun hres => retryLoop_first_notVideo env st hres⟩

/-- Witness for claim C4 against the always-rate-limited provider. -/
theorem C4_retry_policy_witness :
    retryLoop envRateLimited 0 max_retries (initSt []) = Except.error
      (PyExc.insta "429 too many requests: rate-limited",
        { replies := [], files := [], attemptsMade := 3, backoffSleeps := [5, 10],
          rotations := 2, sweepRan := false, dirExists := true }) := by
  have h := (C4_retry_policy envRateLimited (initSt [])
      "429 too many requests: rate-limited" (PyExc.other "")).1
    (fun _ => rfl) (by decide)
  exact h

/-- Claim C5, counterexample: a rate-limited failure that survives all
retries is reported with the generic download-failure message — there is
no distinct rate-limited user-facing message, contrary to the claim. -/
theorem C5_classifier_counterexample :
    (download_video envRateLimited sampleUrl []).replies =
      [Reply.text processingMsg, Reply.text genericMsg] := by
  exact rfl

/-- Claim C5 (amended): the classifier maps every caught failure onto one of
the fixed messages NotFound, Private, Generic, Unexpected by inspecting
the lowered cause for the markers "not found" and then "private"; there
is no rate-limited category: a rate-limited failure that survives all
retries receives the generic message. -/
theorem C5_classifier_amended (msg m2 : String) (env : Env) (init : List String) :
    (markerIn "not found" msg = true → classify (PyExc.insta msg) = notFoundMsg)
    ∧ (markerIn "not found" msg = false → markerIn "private" msg = true →
        classify (PyExc.insta msg) = privateMsg)
    ∧ (markerIn "not found" msg = false → markerIn "private" msg = false →
        classify (PyExc.insta msg) = genericMsg)
    ∧ classify (PyExc.other m2) = unexpectedMsg
    ∧ ((∀ i, (env.attempts i).resolve = ResolveResult.err (PyExc.insta msg)) →
        markerIn "rate-limited" msg = true →
        markerIn "not found" msg = false → markerIn "private" msg = false →
        (download_video env sampleUrl init).replies =
          [Reply.text processingMsg, Reply.text genericMsg]) := by
  refine ⟨?_, ?_, ?_, rfl, ?_⟩
  · intro h1
    rw [classify_insta, if_pos h1]
  · intro h1 h2
    rw [classify_insta, if_neg (by simp [h1]), if_pos h2]
  · intro h1 h2
    rw [classify_insta, if_neg (by simp [h1]), if_neg (by simp [h2])]
  · intro hres hmark hnf hpr
    have hex : extract_shortcode sampleUrl = some "p" := by decide
    have hrl := retryLoop_always_rl env
      { initSt init with
        replies := (initSt init).replies ++ [Reply.text processingMsg],
        rotations := (initSt init).rotations + 1 } msg hres hmark
    have htb := tryBody_loop_err env sampleUrl (initSt init) "p" _ _ hex hrl
    rw [download_video_err env sampleUrl init _ _ htb]
    have hcl : classify (PyExc.insta msg) = genericMsg := by
      rw [classify_insta, if_neg (by simp [hnf]), if_neg (by simp [hpr])]
    simp [hcl, initSt]

/-- Witness for the amended claim C5: the not-found marker and a
non-instaloader failure each select their fixed message. -/
theorem C5_classifier_amended_witness :
    classify (PyExc.insta "Fetching Post metadata failed: 404 not found") = notFoundMsg
      ∧ classify (PyExc.other "boom") = unexpectedMsg :=
  ⟨(C5_classifier_amended "Fetching Post metadata failed: 404 not found" "boom"
      envNotFound []).1 (by decide),
   (C5_classifier_amended "x" "boom" envNotFound []).2.2.2.1⟩

/-- Claim C6: when the URL has fewer than two path segments after
trailing-slash removal, `extract_shortcode` does not return a result — it
raises (the `IndexError` the spec names `MalformedUrlError`). -/
theorem C6_malformed (url : String)
    (h : (splitSlash (rstripSlash url.toList)).length < 2) :
    extract_shortcode url = none := by
  unfold extract_shortcode pyIndexNeg2
  rw [if_neg (by omega)]
  rfl

/-- Witness for claim C6 on a URL with a single path segment. -/
theorem C6_malformed_witness :
    (splitSlash (rstripSlash "instagram.com".toList)).length < 2
      ∧ extract_shortcode "instagram.com" = none :=
  ⟨by decide, C6_malformed "instagram.com" (by decide)⟩

/-- Claim C7: when the transport rejects the payload the failure is caught
and reported as the oversize text instead of propagating, and in both the
success and the rejection case the selected artifact file is deleted
immediately after the delivery attempt (assuming the deletion itself
succeeds, as the claim presupposes). -/
theorem C7_delivery (env : Env) (st : St) (f : String)
    (hf : st.files.find? (fun x => pyEndsWith x ".mp4") = some f)
    (hrm : env.removeFails f = false) :
    sendPhase env st = Except.ok
      { st with
        replies := st.replies ++
          [if env.sendVideoFails f then Reply.text tooLargeMsg
           else Reply.video captionMsg],
        files := st.files.erase f } := by
  rw [sendPhase_found env st f hf, if_neg (by simp [hrm])]
  rfl

/-- Witness for claim C7: an oversize artifact produces the too-large text
reply and the artifact is deleted. -/
theorem C7_delivery_witness :
    sendPhase envOversize { initSt [] with files := ["big.mp4"] } = Except.ok
      { replies := [Reply.text tooLargeMsg], files := [], attemptsMade := 0,
        backoffSleeps := [], rotations := 0, sweepRan := false,
        dirExists := true } := by
  have h := C7_delivery envOversize { initSt [] with files := ["big.mp4"] }
    "big.mp4" rfl rfl
  exact h

/-- Claim C8: every failure raised while processing a request is caught at
the request boundary and converted into one of the four fixed user-facing
text replies; the handler always returns normally. -/
theorem C8_all_caught (env : Env) (url : String) (init : List String)
    (e : PyExc) (st' : St)
    (h : tryBody env url (initSt init) = Except.error (e, st')) :
    (download_video env url init).replies = st'.replies ++ [Reply.text (classify e)]
    ∧ (classify e = notFoundMsg ∨ classify e = privateMsg
        ∨ classify e = genericMsg ∨ classify e = unexpectedMsg) := by
  constructor
  · rw [download_video_err env url init e st' h]
  · cases e with
    | insta msg =>
      rw [classify_insta]
      by_cases h1 : markerIn "not found" msg <;>
        by_cases h2 : markerIn "private" msg <;> simp [h1, h2]
    | other m => simp [classify_other]

/-- Witness for claim C8 at a concrete not-found failure. -/
theorem C8_all_caught_witness :
    (download_video envNotFound sampleUrl []).replies =
      [Reply.text processingMsg, Reply.text notFoundMsg] := by
  have h := C8_all_caught envNotFound sampleUrl []
    (PyExc.insta "Fetching Post metadata failed: 404 not found")
    { replies := [Reply.text processingMsg], files := [], attemptsMade := 1,
      backoffSleeps := [], rotations := 1, sweepRan := false, dirExists := true }
    rfl
  rw [h.1]
  decide

/-- Claim C9: workspace release is a total function (per-file deletion
failures are only logged: the failing file is kept, nothing is raised),
it removes exactly the files whose deletion succeeds, it is idempotent,
it empties the directory when no deletion fails, and the cleanup sweep
never touches the directory itself. -/
theorem C9_release_idempotent (rf : String → Bool) (files : List String)
    (env : Env) (st : St) :
    release rf (release rf files) = release rf files
    ∧ (∀ f, f ∈ release rf files ↔ f ∈ files ∧ rf f = true)
    ∧ ((∀ f, rf f = false) → release rf files = [])
    ∧ (sweep env st).dirExists = st.dirExists := by
  refine ⟨?_, ?_, ?_, rfl⟩
  · unfold release
    rw [List.filter_filter]
    simp
  · intro f
    unfold release
    simp [List.mem_filter]
  · intro h
    unfold release
    simp [h]

/-- Witness for claim C9 with no failing deletions: release empties the
directory. -/
theorem C9_release_idempotent_witness :
    release (fun _ => false) ["a.mp4", "note.txt"] = [] :=
  (C9_release_idempotent (fun _ => false) ["a.mp4", "note.txt"]
    envHappy (initSt [])).2.2.1 (fun _ => rfl)

/-- Claim C10: the per-requester directory exists after every invocation of
the handler — including one that fails because the URL is malformed,
which still gets the processing and unexpected-failure replies — since it
is created up front and no operation deletes the directory itself; its
name is `downloads_<chatId>`. -/
theorem C10_directory (env : Env) (url : String) (init : List String) :
    (download_video env url init).dirExists = true
    ∧ (extract_shortcode url = none →
        (download_video env url init).replies =
          [Reply.text processingMsg, Reply.text unexpectedMsg])
    ∧ (∀ chatId : Nat, downloadDirName chatId = "downloads_" ++ toString chatId) := by
  refine ⟨?_, ?_, fun _ => rfl⟩
  · cases h : tryBody env url (initSt init) with
    | ok st' =>
      rw [download_video_ok env url init st' h]
      have hd := (tryBody_dirExists env url (initSt init)).2 st' h
      rw [hd]
      rfl
    | error es =>
      obtain ⟨e0, s0⟩ := es
      rw [download_video_err env url init e0 s0 h]
      have hd := (tryBody_dirExists env url (initSt init)).1 e0 s0 h
      exact hd.trans rfl
  · intro hex
    have htb := tryBody_none env url (initSt init) hex
    rw [download_video_err env url init _ _ htb]
    simp [initSt, classify]

/-- Witness for claim C10 on a malformed URL. -/
theorem C10_directory_witness :
    (download_video envHappy "instagram" []).dirExists = true
      ∧ (download_video envHappy "instagram" []).replies =
          [Reply.text processingMsg, Reply.text unexpectedMsg] :=
  ⟨(C10_directory envHappy "instagram" []).1,
   (C10_directory envHappy "instagram" []).2.1 (by decide)⟩

end InstaBot
